import Mathlib

/-!
Verification of the rraft repository.

Shallow embedding of the three Rust source files:
* `src/rraft/src/bin/raft.rs` — namespace `Raft`: the term-aware machine with the
  stale-term guard, the `Candidate` role and the `Follower` role.  `Instant` is
  modelled as `Nat`; a `todo!()` body (a panic) is modelled as `none`; a method
  that mutates `&mut self` / `&mut State` is modelled by returning the new values.
* `src/rraft/src/main.rs` — namespace `MainRs`: the Heartbeater/Follower sketch.
  `Instant`/`Duration` are modelled as `Nat` counted in seconds.
* `src/rraft/src/bin/emit_respond.rs` — namespace `Sim`: the `TimedMessage`
  ordering, shared verbatim (up to the payload type) with `raft.rs`, hence
  embedded once, parametrised over the payload type.
-/

namespace Raft

/-- `struct LogEntry {}` from raft.rs: a log entry with no fields. -/
structure LogEntry where
  deriving Repr, DecidableEq

/-- `struct State` from raft.rs. -/
structure State where
  current_term : Nat
  voted_for : Option Nat
  log : List LogEntry
  commit_index : Nat
  last_applied : Nat
  n_nodes : Nat
  deriving Repr, DecidableEq

/-- `enum Message` from raft.rs: append-entry requests and responses. -/
inductive Message where
  | AppendEntryRequest (term leader_id prev_log_index prev_log_term : Nat)
      (entries : List LogEntry) (leader_commit : Nat)
  | AppendEntryResponse (term : Nat) (success : Bool) (from_ : Nat)
  deriving Repr, DecidableEq

/-- `impl HasTerm for Message` from raft.rs: the term carried by either variant. -/
def Message.term : Message → Nat
  | .AppendEntryRequest t _ _ _ _ _ => t
  | .AppendEntryResponse t _ _ => t

/-- The roles a raft.rs machine can hold: `struct Candidate { votes_received,
election_started }` and the Follower it steps down to.  raft.rs writes
`Follower {}` without ever declaring the struct or an `impl Role for Follower`;
the `election_deadline` field is modelled from the spec (§4.2 gives Follower
`{electionDeadline: Time}`). -/
inductive Role where
  | Candidate (votes_received : Nat) (election_started : Nat)
  | Follower (election_deadline : Nat)
  deriving Repr, DecidableEq

/-- Whether a role is the Follower role. -/
def Role.isFollower : Role → Bool
  | .Follower _ => true
  | .Candidate _ _ => false

/-- Modelled from the spec: §4.2's randomized election timeout draws uniformly
from a fixed range (150–300 simulated milliseconds); raft.rs never constructs a
Follower deadline, so the model fixes one representative constant. -/
def election_timeout : Nat := 150

/-- `Candidate::transition` from raft.rs: on a message whose term is strictly
greater than `current_term`, adopt the term and step down to Follower.  The
source constructs the field-less `Follower {}`; the deadline of the new Follower
is modelled from the spec (§4.2: entry into Follower resets the deadline to
`now + randomized_timeout()`). -/
def Candidate.transition (msg : Message) (at_ : Nat) (s : State) : Option Role × State :=
  if msg.term > s.current_term then
    (some (Role.Follower (at_ + election_timeout)), { s with current_term := msg.term })
  else
    (none, s)

/-- `Candidate::handle` from raft.rs is `todo!()` — a panic, modelled as `none`. -/
def Candidate.handle (msg : Message) (at_ : Nat) (s : State) :
    Option (Role × State × List Message) :=
  none

/-- `Candidate::tick` from raft.rs is `todo!()` — a panic, modelled as `none`. -/
def Candidate.tick (at_ : Nat) (s : State) : Option (Option Role × State) :=
  none

/-- `Candidate::tick_msg` from raft.rs is `todo!()` — a panic, modelled as `none`. -/
def Candidate.tick_msg (at_ : Nat) (s : State) : Option (State × List Message) :=
  none

/-- Modelled from the spec: raft.rs contains no `impl Role for Follower`.
§4.1 requires every role to adopt a strictly newer term; a Follower is already a
Follower, so it keeps its role (`None`). -/
def Follower.transition (msg : Message) (at_ : Nat) (s : State) : Option Role × State :=
  if msg.term > s.current_term then
    (none, { s with current_term := msg.term })
  else
    (none, s)

/-- Modelled from the spec: raft.rs contains no `impl Role for Follower`.
§4.2: on `AppendEntriesRequest`, reset the election deadline, accept iff
`prevLogIndex == 0` or the log has an entry at `prevLogIndex` (raft.rs's
`LogEntry` has no fields, so the `prevLogTerm` comparison degenerates to the
existence check), on acceptance truncate from `prevLogIndex` and append the
incoming entries, set `commitIndex = min(leaderCommit, log.lastIndex())`, and
always answer with an `AppendEntryResponse`.  raft.rs carries no node identity
(`Role::id` is `todo!()`), so the responder id in the reply is 0.  A Follower
takes no action on an `AppendEntryResponse`. -/
def Follower.handle (election_deadline : Nat) (msg : Message) (at_ : Nat) (s : State) :
    Option (Role × State × List Message) :=
  match msg with
  | .AppendEntryRequest _ _ prev_log_index _ entries leader_commit =>
    if prev_log_index = 0 ∨ prev_log_index ≤ s.log.length then
      let newLog := s.log.take prev_log_index ++ entries
      some (Role.Follower (at_ + election_timeout),
        { s with log := newLog, commit_index := min leader_commit newLog.length },
        [Message.AppendEntryResponse s.current_term true 0])
    else
      some (Role.Follower (at_ + election_timeout), s,
        [Message.AppendEntryResponse s.current_term false 0])
  | .AppendEntryResponse _ _ _ =>
    some (Role.Follower election_deadline, s, [])

/-- Modelled from the spec: raft.rs contains no `impl Role for Follower`.
§4.2: if `now ≥ electionDeadline`, transition to Candidate; §4.3 on entry:
`currentTerm += 1`, `votesReceived = {self}` (raft.rs counts votes with a `usize`,
so 1), `election_started = now`.  §4.3's `votedFor = self` cannot be recorded:
raft.rs gives the node no identity. -/
def Follower.tick (election_deadline : Nat) (at_ : Nat) (s : State) :
    Option (Option Role × State) :=
  if at_ ≥ election_deadline then
    some (some (Role.Candidate 1 at_), { s with current_term := s.current_term + 1 })
  else
    some (none, s)

/-- Modelled from the spec: §4.2 — a Follower sends no periodic messages. -/
def Follower.tick_msg (at_ : Nat) (s : State) : Option (State × List Message) :=
  some (s, [])

/-- Dispatch of `Role::transition` over the installed role. -/
def Role.transition : Role → Message → Nat → State → Option Role × State
  | .Candidate _ _, msg, at_, s => Candidate.transition msg at_ s
  | .Follower _, msg, at_, s => Follower.transition msg at_ s

/-- Dispatch of `Role::handle` over the installed role. -/
def Role.handle : Role → Message → Nat → State → Option (Role × State × List Message)
  | .Candidate _ _, msg, at_, s => Candidate.handle msg at_ s
  | .Follower d, msg, at_, s => Follower.handle d msg at_ s

/-- Dispatch of `Role::tick` over the installed role. -/
def Role.tick : Role → Nat → State → Option (Option Role × State)
  | .Candidate _ _, at_, s => Candidate.tick at_ s
  | .Follower d, at_, s => Follower.tick d at_ s

/-- Dispatch of `Role::tick_msg` over the installed role. -/
def Role.tick_msg : Role → Nat → State → Option (State × List Message)
  | .Candidate _ _, at_, s => Candidate.tick_msg at_ s
  | .Follower _, at_, s => Follower.tick_msg at_ s

/-- `struct Machine` from raft.rs: one installed role plus the node state. -/
structure Machine where
  role : Role
  last_tick : Nat
  state : State
  deriving Repr, DecidableEq

/-- The body of `Machine::handle` after the stale-term guard, exactly as the
spec's §4.5 `deliver` describes it: call `transition`, swap the role if one is
returned, call `handle` against the current role, return its outgoing
messages. -/
def Machine.transitionThenHandle (m : Machine) (msg : Message) (at_ : Nat) :
    Option (Machine × List Message) :=
  let t := m.role.transition msg at_ m.state
  let role1 := t.1.getD m.role
  match role1.handle msg at_ t.2 with
  | none => none
  | some (r2, s2, out) => some ({ m with role := r2, state := s2 }, out)

/-- `Machine::handle` from raft.rs: drop the message when
`current_term > msg.term()`, otherwise run `transition`, swap the role if one is
returned, and run `handle` against the current role. -/
def Machine.handle (m : Machine) (msg : Message) (at_ : Nat) :
    Option (Machine × List Message) :=
  if m.state.current_term > msg.term then
    some (m, [])
  else
    let t := m.role.transition msg at_ m.state
    let role1 := t.1.getD m.role
    match role1.handle msg at_ t.2 with
    | none => none
    | some (r2, s2, out) => some ({ m with role := r2, state := s2 }, out)

/-- `Machine::tick` from raft.rs: run `tick`, swap the role if one is returned,
record `last_tick`, and run `tick_msg` against the current role. -/
def Machine.tick (m : Machine) (at_ : Nat) : Option (Machine × List Message) :=
  match m.role.tick at_ m.state with
  | none => none
  | some (newRole, s1) =>
    let role1 := newRole.getD m.role
    match role1.tick_msg at_ s1 with
    | none => none
    | some (s2, out) => some ({ role := role1, last_tick := at_, state := s2 }, out)

/-- An operation applied to a machine: a message delivery or a periodic tick. -/
inductive Op where
  | deliver (msg : Message) (at_ : Nat)
  | tick (at_ : Nat)

/-- One operation on a machine. -/
def Machine.step (m : Machine) : Op → Option (Machine × List Message)
  | .deliver msg at_ => m.handle msg at_
  | .tick at_ => m.tick at_

/-- A sequence of operations on a machine, stopping at the first panic. -/
def Machine.run (m : Machine) : List Op → Option Machine
  | [] => some m
  | op :: rest =>
    match m.step op with
    | none => none
    | some (m1, _) => m1.run rest

/-- Modelled from the spec: `Candidate::handle` in raft.rs is `todo!()`, so the
quorum test is taken from §4.3's words — the Candidate becomes Leader when
`votesReceived` strictly exceeds `clusterSize / 2` (integer division). -/
def becomes_leader (votes_received n_nodes : Nat) : Bool :=
  decide (votes_received > n_nodes / 2)

end Raft

namespace MainRs

/-- `struct HeartbeatMsg` from main.rs. -/
inductive HeartbeatMsg where
  | mk
  deriving Repr, DecidableEq

/-- `struct Heartbeater` from main.rs. -/
structure Heartbeater where
  next_heartbeat : Nat
  interval : Nat
  deriving Repr, DecidableEq

/-- `struct Follower` from main.rs. -/
structure Follower where
  convert_to_heartbeater : Nat
  deriving Repr, DecidableEq

/-- `enum State` from main.rs. -/
inductive State where
  | Heartbeater (hb : Heartbeater)
  | Follower (f : Follower)
  deriving Repr, DecidableEq

/-- Whether a main.rs state holds the Heartbeater role. -/
def State.isHeartbeater : State → Bool
  | .Heartbeater _ => true
  | .Follower _ => false

/-- Whether a main.rs state holds the Follower role. -/
def State.isFollower : State → Bool
  | .Heartbeater _ => false
  | .Follower _ => true

/-- `Heartbeater::new` from main.rs. -/
def Heartbeater.new (interval created_at : Nat) : Heartbeater :=
  { next_heartbeat := created_at, interval := interval }

/-- `Heartbeater::tick_msg` from main.rs: emit a heartbeat when due and re-arm. -/
def Heartbeater.tick_msg (hb : Heartbeater) (at_ : Nat) : Heartbeater × Option HeartbeatMsg :=
  if at_ ≥ hb.next_heartbeat then
    ({ hb with next_heartbeat := at_ + hb.interval }, some HeartbeatMsg.mk)
  else
    (hb, none)

/-- `Heartbeater::tick_state` from main.rs: a Heartbeater stays a Heartbeater. -/
def Heartbeater.tick_state (hb : Heartbeater) (at_ : Nat) : State :=
  State.Heartbeater hb

/-- `Follower::new` from main.rs: the conversion deadline is
`created_at + Duration::from_secs(5)`. -/
def Follower.new (created_at : Nat) : Follower :=
  { convert_to_heartbeater := created_at + 5 }

/-- `Follower::tick_msg` from main.rs: a Follower never emits a message. -/
def Follower.tick_msg (f : Follower) (at_ : Nat) : Follower × Option HeartbeatMsg :=
  (f, none)

/-- `Follower::tick_state` from main.rs: at or past the conversion deadline the
Follower becomes a Heartbeater with a 2-second interval created now. -/
def Follower.tick_state (f : Follower) (at_ : Nat) : State :=
  if at_ ≥ f.convert_to_heartbeater then
    State.Heartbeater (Heartbeater.new 2 at_)
  else
    State.Follower f

/-- `struct Raft` from main.rs. -/
structure Raft where
  replica_id : Nat
  state : State
  deriving Repr, DecidableEq

/-- `Raft::new` from main.rs: a node starts as a Follower. -/
def Raft.new (replica_id created_at : Nat) : Raft :=
  { replica_id := replica_id, state := State.Follower (Follower.new created_at) }

/-- `Raft::tick` from main.rs: dispatch `tick_state` over the installed role. -/
def Raft.tick (r : Raft) (at_ : Nat) : Raft :=
  { r with state :=
      match r.state with
      | State.Heartbeater hb => hb.tick_state at_
      | State.Follower f => f.tick_state at_ }

end MainRs

namespace Sim

/-- `struct TimedMessage` from raft.rs and emit_respond.rs, parametrised over the
payload type (the two files differ only in their `Message` enum). -/
structure TimedMessage (α : Type) where
  delivery_time : Nat
  from_ : Nat
  to_ : Nat
  message : α
  deriving Repr, DecidableEq

/-- `impl Ord for TimedMessage`: reversed ordering for a min-heap — compare the
OTHER message's delivery time against this one's. -/
def TimedMessage.cmp {α : Type} (a b : TimedMessage α) : Ordering :=
  compare b.delivery_time a.delivery_time

/-- `impl PartialEq for TimedMessage`: equality looks only at the delivery time. -/
def TimedMessage.beq {α : Type} (a b : TimedMessage α) : Bool :=
  a.delivery_time == b.delivery_time

end Sim

/-! ## Theorems about raft.rs -/

namespace Raft

/-- Helper: when the stale-term guard passes, `Machine::handle` is the
transition-then-handle sequence. -/
theorem machine_handle_passes_guard (m : Machine) (msg : Message) (at_ : Nat)
    (h : ¬ m.state.current_term > msg.term) :
    m.handle msg at_ = m.transitionThenHandle msg at_ := by
  unfold Machine.handle Machine.transitionThenHandle
  rw [if_neg h]

/-- Claim C1: for every incoming message whose term is strictly greater than the
node's `current_term`, processing via `Machine::handle` first adopts the new term
(`current_term` becomes the message's term) and installs the Follower role, and
only then runs the role's `handle`. -/
theorem higher_term_adopts_and_steps_down (m : Machine) (msg : Message) (at_ : Nat)
    (h : msg.term > m.state.current_term) :
    (m.role.transition msg at_ m.state).2.current_term = msg.term ∧
    ((m.role.transition msg at_ m.state).1.getD m.role).isFollower = true ∧
    m.handle msg at_ = m.transitionThenHandle msg at_ := by
  have hng : ¬ m.state.current_term > msg.term := by omega
  refine ⟨?_, ?_, machine_handle_passes_guard m msg at_ hng⟩
  · cases m.role with
    | Candidate v e => simp [Role.transition, Candidate.transition, h]
    | Follower d => simp [Role.transition, Follower.transition, h]
  · cases m.role with
    | Candidate v e => simp [Role.transition, Candidate.transition, h, Role.isFollower]
    | Follower d => simp [Role.transition, Follower.transition, h, Role.isFollower]

/-- Witness for C1: a Candidate at term 0 receiving a term-2 response adopts
term 2 and is a Follower before `handle` runs. -/
theorem higher_term_adopts_and_steps_down_witness :
    ((Machine.mk (Role.Candidate 1 0) 0 (State.mk 0 none [] 0 0 3)).role.transition
        (Message.AppendEntryResponse 2 true 1) 10
        (Machine.mk (Role.Candidate 1 0) 0 (State.mk 0 none [] 0 0 3)).state).2.current_term
      = (Message.AppendEntryResponse 2 true 1).term ∧
    (((Machine.mk (Role.Candidate 1 0) 0 (State.mk 0 none [] 0 0 3)).role.transition
        (Message.AppendEntryResponse 2 true 1) 10
        (Machine.mk (Role.Candidate 1 0) 0 (State.mk 0 none [] 0 0 3)).state).1.getD
        (Machine.mk (Role.Candidate 1 0) 0 (State.mk 0 none [] 0 0 3)).role).isFollower = true ∧
    (Machine.mk (Role.Candidate 1 0) 0 (State.mk 0 none [] 0 0 3)).handle
        (Message.AppendEntryResponse 2 true 1) 10
      = (Machine.mk (Role.Candidate 1 0) 0 (State.mk 0 none [] 0 0 3)).transitionThenHandle
        (Message.AppendEntryResponse 2 true 1) 10 :=
  higher_term_adopts_and_steps_down _ _ 10 (by decide)

/-- Claim C2: a message whose term is strictly below `current_term` is dropped —
`Machine::handle` emits no message and the machine (role and every `State`
field) is returned unchanged. -/
theorem stale_message_dropped (m : Machine) (msg : Message) (at_ : Nat)
    (h : msg.term < m.state.current_term) :
    m.handle msg at_ = some (m, []) := by
  unfold Machine.handle
  rw [if_pos h]

/-- Witness for C2: a term-3 message at a term-5 machine is dropped unchanged. -/
theorem stale_message_dropped_witness :
    (Machine.mk (Role.Follower 100) 0 (State.mk 5 none [] 0 0 3)).handle
        (Message.AppendEntryRequest 3 1 0 0 [] 0) 7
      = some (Machine.mk (Role.Follower 100) 0 (State.mk 5 none [] 0 0 3), []) :=
  stale_message_dropped _ _ 7 (by decide)

/-- Claim C3 (spec-modelled: `Candidate::handle` is `todo!()` in raft.rs, the
quorum rule is §4.3's): for each cluster size in {1, 2, 3, 4, 5, 7} the
Candidate becomes Leader exactly when its votes first exceed `n / 2` (integer
division), i.e. at `n / 2 + 1` votes — size 4 needs 3 votes, size 5 needs 3 —
and the threshold is already met at `n / 2 + 1` votes even though
`n / 2 + 1 > n / 2 + 1` fails, refuting the `> n / 2 + 1` variant. -/
theorem candidate_quorum_threshold (n : Nat) (h : n ∈ ([1, 2, 3, 4, 5, 7] : List Nat)) :
    (∀ v, becomes_leader v n = true ↔ n / 2 + 1 ≤ v) ∧
    becomes_leader (n / 2 + 1) n = true ∧
    ¬ (n / 2 + 1 > n / 2 + 1) ∧
    becomes_leader 3 4 = true ∧ becomes_leader 2 4 = false ∧
    becomes_leader 3 5 = true ∧ becomes_leader 2 5 = false := by
  refine ⟨fun v => ?_, ?_, by omega, by decide, by decide, by decide, by decide⟩
  · simp only [becomes_leader, decide_eq_true_eq]
    omega
  · simp only [becomes_leader, decide_eq_true_eq]
    omega

/-- Witness for C3: instantiated at cluster size 4. -/
theorem candidate_quorum_threshold_witness :
    (∀ v, becomes_leader v 4 = true ↔ 4 / 2 + 1 ≤ v) ∧
    becomes_leader (4 / 2 + 1) 4 = true ∧
    ¬ (4 / 2 + 1 > 4 / 2 + 1) ∧
    becomes_leader 3 4 = true ∧ becomes_leader 2 4 = false ∧
    becomes_leader 3 5 = true ∧ becomes_leader 2 5 = false :=
  candidate_quorum_threshold 4 (by decide)

/-- Claim C5: a message that passes the stale-term guard is processed by first
calling the installed role's `transition`, installing the returned role if any,
and only then calling `handle` against the possibly-new role; the outgoing
messages are exactly those of that `handle` call. -/
theorem deliver_transition_before_handle (m : Machine) (msg : Message) (at_ : Nat)
    (h : ¬ m.state.current_term > msg.term) :
    m.handle msg at_ = m.transitionThenHandle msg at_ ∧
    ∀ r2 s2 out,
      (((m.role.transition msg at_ m.state).1.getD m.role).handle msg at_
          (m.role.transition msg at_ m.state).2 = some (r2, s2, out)) →
      m.handle msg at_ = some ({ m with role := r2, state := s2 }, out) := by
  refine ⟨machine_handle_passes_guard m msg at_ h, fun r2 s2 out hh => ?_⟩
  rw [machine_handle_passes_guard m msg at_ h]
  unfold Machine.transitionThenHandle
  simp only []
  rw [hh]

/-- Witness for C5: a Follower at term 2 receiving an equal-term heartbeat. -/
theorem deliver_transition_before_handle_witness :
    ((Machine.mk (Role.Follower 100) 0 (State.mk 2 none [] 0 0 3)).handle
        (Message.AppendEntryRequest 2 1 0 0 [] 0) 5
      = (Machine.mk (Role.Follower 100) 0 (State.mk 2 none [] 0 0 3)).transitionThenHandle
        (Message.AppendEntryRequest 2 1 0 0 [] 0) 5) ∧
    (Machine.mk (Role.Follower 100) 0 (State.mk 2 none [] 0 0 3)).handle
        (Message.AppendEntryRequest 2 1 0 0 [] 0) 5
      = some (Machine.mk (Role.Follower (5 + election_timeout)) 0 (State.mk 2 none [] 0 0 3),
          [Message.AppendEntryResponse 2 true 0]) :=
  ⟨(deliver_transition_before_handle _ _ 5 (by decide)).1,
   (deliver_transition_before_handle _ _ 5 (by decide)).2 _ _ _ (by decide)⟩

/-- Claim C9: the stale-message guard is strict — a message whose term equals
`current_term` is passed through to `transition` and `handle`, and only a
message with term strictly below `current_term` is discarded. -/
theorem term_guard_strict (m : Machine) (msg : Message) (at_ : Nat) :
    (msg.term = m.state.current_term →
      m.handle msg at_ = m.transitionThenHandle msg at_) ∧
    (msg.term < m.state.current_term → m.handle msg at_ = some (m, [])) := by
  constructor
  · intro he
    exact machine_handle_passes_guard m msg at_ (by omega)
  · intro hl
    unfold Machine.handle
    rw [if_pos hl]

/-- Witness for C9: an equal-term message is processed, a lower-term one is
dropped, on a term-2 Follower machine. -/
theorem term_guard_strict_witness :
    ((Machine.mk (Role.Follower 100) 0 (State.mk 2 none [] 0 0 3)).handle
        (Message.AppendEntryResponse 2 true 1) 5
      = (Machine.mk (Role.Follower 100) 0 (State.mk 2 none [] 0 0 3)).transitionThenHandle
        (Message.AppendEntryResponse 2 true 1) 5) ∧
    (Machine.mk (Role.Follower 100) 0 (State.mk 2 none [] 0 0 3)).handle
        (Message.AppendEntryResponse 1 true 1) 5
      = some (Machine.mk (Role.Follower 100) 0 (State.mk 2 none [] 0 0 3), []) :=
  ⟨(term_guard_strict (Machine.mk (Role.Follower 100) 0 (State.mk 2 none [] 0 0 3))
      (Message.AppendEntryResponse 2 true 1) 5).1 rfl,
   (term_guard_strict (Machine.mk (Role.Follower 100) 0 (State.mk 2 none [] 0 0 3))
      (Message.AppendEntryResponse 1 true 1) 5).2 (by decide)⟩

end Raft

namespace Raft

/-- Helper: `Role::transition` never decreases `current_term`. -/
theorem role_transition_term_mono (r : Role) (msg : Message) (at_ : Nat) (s : State) :
    s.current_term ≤ (r.transition msg at_ s).2.current_term := by
  cases r <;>
    simp only [Role.transition, Candidate.transition, Follower.transition] <;>
    split <;> simp <;> omega

/-- Helper: `Follower::handle` leaves `current_term` unchanged. -/
theorem follower_handle_preserves_term {d : Nat} {msg : Message} {at_ : Nat} {s : State}
    {r2 : Role} {s2 : State} {out : List Message}
    (h : Follower.handle d msg at_ s = some (r2, s2, out)) :
    s2.current_term = s.current_term := by
  cases msg with
  | AppendEntryRequest t l p pt e lc =>
    simp only [Follower.handle] at h
    split at h <;>
    · simp only [Option.some.injEq, Prod.mk.injEq] at h
      obtain ⟨-, h2, -⟩ := h
      subst h2
      rfl
  | AppendEntryResponse t su f =>
    simp only [Follower.handle, Option.some.injEq, Prod.mk.injEq] at h
    obtain ⟨-, h2, -⟩ := h
    subst h2
    rfl

/-- Helper: a completed `Role::handle` call leaves `current_term` unchanged. -/
theorem role_handle_preserves_term {r : Role} {msg : Message} {at_ : Nat} {s : State}
    {r2 : Role} {s2 : State} {out : List Message}
    (h : Role.handle r msg at_ s = some (r2, s2, out)) :
    s2.current_term = s.current_term := by
  cases r with
  | Candidate v e => simp [Role.handle, Candidate.handle] at h
  | Follower d =>
    simp only [Role.handle] at h
    exact follower_handle_preserves_term h

/-- Helper: a completed transition-then-handle step never decreases the term. -/
theorem transitionThenHandle_term_mono {m : Machine} {msg : Message} {at_ : Nat}
    {m' : Machine} {out : List Message}
    (h : m.transitionThenHandle msg at_ = some (m', out)) :
    m.state.current_term ≤ m'.state.current_term := by
  simp only [Machine.transitionThenHandle] at h
  split at h
  · exact absurd h (by simp)
  · rename_i r2 s2 out2 heq
    simp only [Option.some.injEq, Prod.mk.injEq] at h
    obtain ⟨h1, -⟩ := h
    have e1 : s2.current_term = (m.role.transition msg at_ m.state).2.current_term :=
      role_handle_preserves_term heq
    have e2 := role_transition_term_mono m.role msg at_ m.state
    rw [← h1]
    show m.state.current_term ≤ s2.current_term
    omega

/-- Helper: a completed `Machine::handle` never decreases the term. -/
theorem machine_handle_term_mono {m : Machine} {msg : Message} {at_ : Nat}
    {m' : Machine} {out : List Message}
    (h : m.handle msg at_ = some (m', out)) :
    m.state.current_term ≤ m'.state.current_term := by
  unfold Machine.handle at h
  split at h
  · simp only [Option.some.injEq, Prod.mk.injEq] at h
    obtain ⟨h1, -⟩ := h
    rw [← h1]
  · have h' : m.transitionThenHandle msg at_ = some (m', out) := h
    exact transitionThenHandle_term_mono h'

/-- Helper: a completed `Machine::tick` never decreases the term. -/
theorem machine_tick_term_mono {m : Machine} {at_ : Nat}
    {m' : Machine} {out : List Message}
    (h : m.tick at_ = some (m', out)) :
    m.state.current_term ≤ m'.state.current_term := by
  unfold Machine.tick at h
  cases hr : m.role with
  | Candidate v e =>
    rw [hr] at h
    simp [Role.tick, Candidate.tick] at h
  | Follower d =>
    rw [hr] at h
    by_cases hd : at_ ≥ d
    · simp [Role.tick, Follower.tick, hd, Role.tick_msg, Candidate.tick_msg] at h
    · simp [Role.tick, Follower.tick, hd, Role.tick_msg, Follower.tick_msg] at h
      obtain ⟨h1, -⟩ := h
      rw [← h1]

/-- Helper: one completed `step` (deliver or tick) never decreases the term. -/
theorem machine_step_term_mono {m : Machine} {op : Op} {m' : Machine} {out : List Message}
    (h : m.step op = some (m', out)) :
    m.state.current_term ≤ m'.state.current_term := by
  cases op with
  | deliver msg at_ => exact machine_handle_term_mono h
  | tick at_ => exact machine_tick_term_mono h

/-- Claim C4: across every sequence of deliver and tick operations that runs to
completion, a machine's `current_term` never decreases. -/
theorem current_term_monotone (m : Machine) (ops : List Op) (m' : Machine)
    (h : m.run ops = some m') :
    m.state.current_term ≤ m'.state.current_term := by
  induction ops generalizing m with
  | nil =>
    simp only [Machine.run, Option.some.injEq] at h
    rw [h]
  | cons op rest ih =>
    simp only [Machine.run] at h
    split at h
    · exact absurd h (by simp)
    · rename_i m1 out heq
      exact le_trans (machine_step_term_mono heq) (ih m1 h)

/-- Witness for C4: a higher-term delivery followed by a pre-deadline tick,
raising the term from 0 to 5. -/
theorem current_term_monotone_witness :
    Machine.run (Machine.mk (Role.Follower 100) 0 (State.mk 0 none [] 0 0 3))
        ([Op.deliver (Message.AppendEntryResponse 5 true 1) 0, Op.tick 50] : List Op)
      = some (Machine.mk (Role.Follower 100) 50 (State.mk 5 none [] 0 0 3)) ∧
    (Machine.mk (Role.Follower 100) 0 (State.mk 0 none [] 0 0 3)).state.current_term
      ≤ (Machine.mk (Role.Follower 100) 50 (State.mk 5 none [] 0 0 3)).state.current_term :=
  ⟨by decide,
   current_term_monotone (Machine.mk (Role.Follower 100) 0 (State.mk 0 none [] 0 0 3))
     [Op.deliver (Message.AppendEntryResponse 5 true 1) 0, Op.tick 50]
     (Machine.mk (Role.Follower 100) 50 (State.mk 5 none [] 0 0 3)) (by decide)⟩

end Raft

/-! ## Theorems about main.rs -/

namespace MainRs

/-- Claim C7: the Heartbeater (heartbeat-emitting, i.e. leader-like) role never
leaves its role on a timer tick — `tick_state` returns the same Heartbeater, at
every time, also through `Raft::tick`. -/
theorem heartbeater_never_steps_down_on_tick (hb : Heartbeater) (at_ i : Nat) :
    Heartbeater.tick_state hb at_ = State.Heartbeater hb ∧
    (Raft.tick { replica_id := i, state := State.Heartbeater hb } at_).state
      = State.Heartbeater hb :=
  ⟨rfl, rfl⟩

/-- Counterexample to claim C6 as stated: at its deadline (created at 0,
deadline 5) the main.rs Follower's tick yields the Heartbeater — the
heartbeat-emitting leader role — not a Candidate; main.rs has no Candidate
role at all. -/
theorem follower_timeout_yields_heartbeater :
    Follower.tick_state (Follower.new 0) 5 = State.Heartbeater (Heartbeater.new 2 5) := by
  decide

/-- Claim C6 amended: a main.rs Follower's tick converts it to the Heartbeater
role exactly when `now` is at or past its conversion deadline (set at
construction to `created_at + 5` seconds), stays the same Follower otherwise,
and `tick_msg` never produces a message. -/
theorem follower_tick_conversion (f : Follower) (at_ : Nat) :
    ((f.tick_state at_).isHeartbeater = true ↔ at_ ≥ f.convert_to_heartbeater) ∧
    (at_ ≥ f.convert_to_heartbeater →
      f.tick_state at_ = State.Heartbeater (Heartbeater.new 2 at_)) ∧
    (¬ at_ ≥ f.convert_to_heartbeater → f.tick_state at_ = State.Follower f) ∧
    f.tick_msg at_ = (f, none) ∧
    ∀ c : Nat, (Follower.new c).convert_to_heartbeater = c + 5 := by
  by_cases hc : at_ ≥ f.convert_to_heartbeater <;>
    simp [Follower.tick_state, State.isHeartbeater, Follower.tick_msg, Follower.new, hc]

/-- Witness for C6's amended claim: a Follower with deadline 7, ticked at 7. -/
theorem follower_tick_conversion_witness :
    Follower.tick_state (Follower.mk 7) 7 = State.Heartbeater (Heartbeater.new 2 7) ∧
    Follower.tick_msg (Follower.mk 7) 7 = (Follower.mk 7, none) :=
  ⟨(follower_tick_conversion (Follower.mk 7) 7).2.1 (by decide),
   (follower_tick_conversion (Follower.mk 7) 7).2.2.2.1⟩

end MainRs

/-! ## Theorems about the timed-message ordering -/

namespace Sim

/-- Claim C8: the `TimedMessage` ordering is the reverse of the natural order of
delivery times — `cmp a b = compare b.delivery_time a.delivery_time` — so any
element a max-priority queue can pop (one not `cmp`-below any queued element)
carries an earliest delivery time. -/
theorem timed_message_reverse_order {α : Type} (l : List (TimedMessage α))
    (top : TimedMessage α)
    (h : ∀ x ∈ l, TimedMessage.cmp top x ≠ Ordering.lt) :
    (∀ a b : TimedMessage α, TimedMessage.cmp a b = compare b.delivery_time a.delivery_time) ∧
    ∀ x ∈ l, top.delivery_time ≤ x.delivery_time := by
  refine ⟨fun a b => rfl, fun x hx => ?_⟩
  have hc := h x hx
  unfold TimedMessage.cmp at hc
  by_contra hlt
  push_neg at hlt
  exact hc (Nat.compare_eq_lt.mpr hlt)

/-- Witness for C8: the time-2 message is maximal under `cmp` against a time-2
and a time-7 message, and its delivery time is the least. -/
theorem timed_message_reverse_order_witness :
    (∀ a b : TimedMessage Unit,
        TimedMessage.cmp a b = compare b.delivery_time a.delivery_time) ∧
    ∀ x ∈ ([TimedMessage.mk 2 0 1 (), TimedMessage.mk 7 1 0 ()] : List (TimedMessage Unit)),
      (TimedMessage.mk 2 0 1 () : TimedMessage Unit).delivery_time ≤ x.delivery_time :=
  timed_message_reverse_order _ _ (by decide)

/-- Claim C10: equality and ordering of timed messages look only at the
delivery time — two messages with equal `delivery_time` compare `eq` and test
equal, whatever their sender, recipient or payload. -/
theorem timed_message_order_ignores_content {α : Type} (a b : TimedMessage α)
    (h : a.delivery_time = b.delivery_time) :
    TimedMessage.cmp a b = Ordering.eq ∧ TimedMessage.beq a b = true := by
  unfold TimedMessage.cmp TimedMessage.beq
  rw [h]
  exact ⟨Nat.compare_eq_eq.mpr rfl, by simp⟩

/-- Witness for C10: two time-5 messages with different senders, recipients and
payloads compare as equal. -/
theorem timed_message_order_ignores_content_witness :
    TimedMessage.cmp (TimedMessage.mk 5 1 2 true) (TimedMessage.mk 5 3 4 false)
      = Ordering.eq ∧
    TimedMessage.beq (TimedMessage.mk 5 1 2 true) (TimedMessage.mk 5 3 4 false) = true :=
  timed_message_order_ignores_content _ _ rfl

end Sim
